import Mathlib

/-!
Shallow embedding of the Ionic overlay components found in the repository:
the Modal view controller and ModalController factory (modal.ts), the legacy
Modal module with its animation registrations (modal legacy file), and the
Label directive (label.ts).

Conventions of the embedding: JS undefined and null are both modelled as
none; the util helper isPresent(val), meaning val is neither undefined nor
null, is Option.isSome; JS truthiness of a possibly-absent boolean or string
is made explicit by the helpers truthy and strTruthy below. Machine state
mutated in place by the source (the data and opts argument objects of the
Modal constructor) is returned explicitly as the post-call state of those
objects.
-/

namespace Ionic

/-- JS double negation on a possibly-absent boolean: undefined and null are
falsy, a present boolean coerces to itself. -/
def truthy : Option Bool → Bool
  | none => false
  | some b => b

/-- The util helper isPresent: val is neither undefined nor null. -/
def isPresent {α : Type} (v : Option α) : Bool :=
  v.isSome

/-- JS truthiness of a possibly-absent string: undefined, null and the empty
string are falsy; every other string is truthy. -/
def strTruthy : Option String → Bool
  | none => false
  | some s => s != ""

/-- The recognized modal option fields (modal-options schema as used by
modal.ts): backdrop flags and per-instance animation name overrides. A field
set to none models the key being absent (or undefined/null). -/
structure ModalOptions where
  showBackdrop : Option Bool := none
  enableBackdropDismiss : Option Bool := none
  enterAnimation : Option String := none
  leaveAnimation : Option String := none
  deriving DecidableEq, Repr

/-- The data payload object handed to the Modal constructor and stored in the
view controller: arbitrary user keys (fields) plus the two reserved keys the
constructor writes, data.component and data.opts. -/
structure ViewData (Comp Val : Type) where
  component : Option Comp := none
  opts : Option ModalOptions := none
  fields : List (String × Val) := []
  deriving DecidableEq, Repr

/-- The ambient configuration collaborator reachable through the _nav field
of a view controller: config.get(key) yields the configured value or
undefined. -/
structure NavRef where
  config : String → Option String

/-- The modal view instance (class Modal extends ViewController, modal.ts).
The _nav field is unset at construction and installed later by the
navigation framework. -/
structure Modal (Comp Val : Type) where
  data : ViewData Comp Val
  _enterAnimation : Option String
  _leaveAnimation : Option String
  _nav : Option NavRef
  isOverlay : Bool

/-- The Modal constructor body (modal.ts lines 20 to 33): data is defaulted
to a fresh empty object when null, data.component is assigned, the two
backdrop flags are resolved in place on opts with the ternary
isPresent(opts.flag) then doubly-negated value else true, data.opts is
assigned, and the instance fields are initialised from the resolved opts.
The result carries the instance together with the post-call state of the
two caller-supplied argument objects, which the constructor mutates in
place (a none data argument means the caller passed null, so there is no
caller object to mutate). -/
def modalNew {Comp Val : Type} (component : Comp)
    (dataArg : Option (ViewData Comp Val)) (optsArg : ModalOptions) :
    Modal Comp Val × Option (ViewData Comp Val) × ModalOptions :=
  let data0 := dataArg.getD {}
  let opts1 : ModalOptions :=
    { optsArg with
      showBackdrop :=
        some (if isPresent optsArg.showBackdrop then truthy optsArg.showBackdrop else true),
      enableBackdropDismiss :=
        some (if isPresent optsArg.enableBackdropDismiss then truthy optsArg.enableBackdropDismiss
              else true) }
  let data2 : ViewData Comp Val := { data0 with component := some component, opts := some opts1 }
  let m : Modal Comp Val :=
    { data := data2,
      _enterAnimation := opts1.enterAnimation,
      _leaveAnimation := opts1.leaveAnimation,
      _nav := none,
      isOverlay := true }
  (m, dataArg.map (fun _ => data2), opts1)

/-- The value returned by ModalController.create, bundled with the post-call
state of the caller-supplied data and opts argument objects (aliased into
the instance by the constructor). -/
structure CreateResult (Comp Val : Type) where
  modal : Modal Comp Val
  dataRef : Option (ViewData Comp Val)
  optsRef : ModalOptions

/-- ModalController.create (modal.ts lines 186 to 188): constructs and
returns a new Modal from the component, data and opts arguments. -/
def create {Comp Val : Type} (component : Comp)
    (dataArg : Option (ViewData Comp Val)) (optsArg : ModalOptions) :
    CreateResult Comp Val :=
  let r := modalNew component dataArg optsArg
  { modal := r.1, dataRef := r.2.1, optsRef := r.2.2 }

/-- The expression this._nav and this._nav.config.get(key): undefined when
the instance has no nav, else the ambient configuration value for key. -/
def ambientConfig {Comp Val : Type} (m : Modal Comp Val) (key : String) : Option String :=
  m._nav.bind fun nav => nav.config key

/-- Modal.getTransitionName (modal.ts lines 38 to 52): for direction back,
return the per-instance leave animation when truthy, else look up modalLeave
in the ambient configuration; for any other direction, the enter animation
when truthy, else modalEnter. -/
def Modal.getTransitionName {Comp Val : Type} (m : Modal Comp Val) (direction : String) :
    Option String :=
  if direction = "back" then
    if strTruthy m._leaveAnimation then m._leaveAnimation
    else ambientConfig m "modalLeave"
  else
    if strTruthy m._enterAnimation then m._enterAnimation
    else ambientConfig m "modalEnter"

/-- The overlay classification tags of the app root portals; MODAL is the
tag Modal.present passes. -/
inductive AppPortal
  | DEFAULT
  | MODAL
  deriving DecidableEq, Repr

/-- Navigation options passed along to the presenter (nav-util schema, kept
to the fields this layer forwards unchanged). -/
structure NavOptions where
  animate : Option Bool := none
  direction : Option String := none
  deriving DecidableEq, Repr

/-- One invocation of the external presenter, App.present(view, navOptions,
portal). -/
structure PresenterCall (Comp Val : Type) where
  view : Modal Comp Val
  navOptions : NavOptions
  portal : AppPortal

/-- Modal.present (modal.ts lines 60 to 62): the body is the single
statement returning this._app.present(this, navOptions, AppPortal.MODAL).
The external presenter app is a function argument of the embedding; the
result pairs the presenter result, returned unchanged, with the list of
presenter invocations the call performs. -/
def Modal.present {Comp Val R : Type} (app : PresenterCall Comp Val → R)
    (m : Modal Comp Val) (navOptions : NavOptions) : R × List (PresenterCall Comp Val) :=
  let call : PresenterCall Comp Val := ⟨m, navOptions, AppPortal.MODAL⟩
  (app call, [call])

/-- The observable construction effect of an animation factory as set up in
the legacy modal file: easing curve, duration, and a fromTo triple of
property name, start value and end value. -/
structure AnimationFactory where
  easing : String
  duration : Nat
  fromTo : String × String × String
  deriving DecidableEq, Repr

/-- The ModalSlideIn factory (legacy modal file lines 68 to 76). -/
def ModalSlideIn : AnimationFactory :=
  { easing := "cubic-bezier(.36,.66,.04,1)",
    duration := 400,
    fromTo := ("translateY", "100%", "0%") }

/-- The ModalSlideOut factory (legacy modal file lines 80 to 88). -/
def ModalSlideOut : AnimationFactory :=
  { easing := "ease-out",
    duration := 250,
    fromTo := ("translateY", "0%", "100%") }

/-- The process-wide animation registry: a mapping from names to factories,
with none for an unregistered name. -/
def AnimationRegistry : Type :=
  String → Option AnimationFactory

/-- The registry before any registration. -/
def emptyRegistry : AnimationRegistry :=
  fun _ => none

namespace Animation

/-- Modelled from the spec: the Animation class itself is not among the
provided source files, only its two call sites in the legacy modal file are.
register(name, factory) stores factory under name in the process-wide
registry, overwriting any prior registration for that name; nothing is ever
removed. -/
def register (reg : AnimationRegistry) (name : String) (factory : AnimationFactory) :
    AnimationRegistry :=
  fun n => if n = name then some factory else reg n

end Animation

/-- The registry as populated at module load by the two registration calls
in the legacy modal file (lines 77 and 89). -/
def moduleRegistry : AnimationRegistry :=
  Animation.register (Animation.register emptyRegistry "modal-slide-in" ModalSlideIn)
    "modal-slide-out" ModalSlideOut

/-- Modelled from the spec: presentation-time resolution of the transition
animation by name (the transition machinery is not among the provided
source files). An absent name, or a name with no registration, is a fatal
configuration error surfaced as a rejection of the completion signal of the
present call. -/
def resolveTransition (reg : AnimationRegistry) (name : Option String) :
    Except String AnimationFactory :=
  match name with
  | none => Except.error "animation not registered"
  | some n =>
    match reg n with
    | some f => Except.ok f
    | none => Except.error "animation not registered"

/-- The lifecycle states of a single overlay instance. -/
inductive OverlayState
  | created
  | presenting
  | presented
  | dismissing
  | dismissed
  deriving DecidableEq, Repr

/-- Modelled from the spec: the overlay lifecycle is the deterministic chain
created to presenting to presented to dismissing to dismissed; each state
has at most one successor and the dismissed state has none (instances are
single-use and never leave dismissed). The state machine lives in the
ViewController and App layers, which are not among the provided source
files. -/
def overlayNext : OverlayState → Option OverlayState
  | OverlayState.created => some OverlayState.presenting
  | OverlayState.presenting => some OverlayState.presented
  | OverlayState.presented => some OverlayState.dismissing
  | OverlayState.dismissing => some OverlayState.dismissed
  | OverlayState.dismissed => none

/-- Modelled from the spec: a present call is accepted only on a freshly
created instance; presenting a dismissed or already-presenting instance is
rejected rather than silently accepted. -/
def tryPresent : OverlayState → Except String OverlayState
  | OverlayState.created => Except.ok OverlayState.presenting
  | _ => Except.error "overlay can only be presented once"

/-- The Label directive instance: only the type field computed by the
constructor matters here. -/
structure Label where
  type : Option String
  deriving DecidableEq, Repr

/-- The Label constructor (label.ts lines 71 to 82): each attribute value is
the bound string when the attribute is present on the element and null
(none) when absent; the type is the nested conditional over strict equality
with the empty string, in the order floating, stacked, fixed, inset, and
null when none matches. -/
def Label.make (isFloating isStacked isFixed isInset : Option String) : Label :=
  { type :=
      if isFloating = some "" then some "floating"
      else if isStacked = some "" then some "stacked"
      else if isFixed = some "" then some "fixed"
      else if isInset = some "" then some "inset"
      else none }

/-- Sample data payload for the concrete example of the spec: a single user
key userId mapped to 8675309. -/
def sampleData : ViewData String Int :=
  { fields := [("userId", 8675309)] }

/-- Sample modal with an explicit per-instance leave animation override and
an ambient configuration supplying modalLeave. -/
def sampleModalBack : Modal String Int :=
  { data := {},
    _enterAnimation := none,
    _leaveAnimation := some "my-fade-out",
    _nav := some { config := fun k => if k = "modalLeave" then some "modal-slide-out" else none },
    isOverlay := true }

/-- Sample modal with no per-instance overrides and an ambient configuration
supplying modalLeave. -/
def sampleModalCfg : Modal String Int :=
  { data := {},
    _enterAnimation := none,
    _leaveAnimation := none,
    _nav := some { config := fun k => if k = "modalLeave" then some "modal-slide-out" else none },
    isOverlay := true }

/-- Claim C1: for every options record passed to Modal construction via
ModalController.create in which showBackdrop and/or enableBackdropDismiss is
absent, the resolved options record of the returned view instance has the
absent field(s) set to true. -/
theorem C1_absent_flags_default_true {Comp Val : Type} (c : Comp)
    (d : Option (ViewData Comp Val)) (o : ModalOptions) :
    (o.showBackdrop = none →
      ((create c d o).modal.data.opts).map ModalOptions.showBackdrop = some (some true)) ∧
    (o.enableBackdropDismiss = none →
      ((create c d o).modal.data.opts).map ModalOptions.enableBackdropDismiss =
        some (some true)) := by
  obtain ⟨sb, ebd, ea, la⟩ := o
  constructor
  · intro h
    cases h
    rfl
  · intro h
    cases h
    rfl

/-- Witness for C1 at a concrete input: both flags are absent in the empty
options record, and the resolved instance has both set to true. -/
theorem C1_witness :
    ((create "CompA" (some ({} : ViewData String Int)) ({} : ModalOptions)).modal.data.opts).map
      ModalOptions.showBackdrop = some (some true) ∧
    ((create "CompA" (some ({} : ViewData String Int)) ({} : ModalOptions)).modal.data.opts).map
      ModalOptions.enableBackdropDismiss = some (some true) :=
  ⟨(C1_absent_flags_default_true "CompA" (some {}) {}).1 rfl,
   (C1_absent_flags_default_true "CompA" (some {}) {}).2 rfl⟩

/-- Claim C2: for every options record passed to Modal construction in which
showBackdrop or enableBackdropDismiss is explicitly present with value
false, the resolved options record of the returned view instance preserves
false for that field; the default true does not overwrite an explicit
false. -/
theorem C2_explicit_false_preserved {Comp Val : Type} (c : Comp)
    (d : Option (ViewData Comp Val)) (o : ModalOptions) :
    (o.showBackdrop = some false →
      ((create c d o).modal.data.opts).map ModalOptions.showBackdrop = some (some false)) ∧
    (o.enableBackdropDismiss = some false →
      ((create c d o).modal.data.opts).map ModalOptions.enableBackdropDismiss =
        some (some false)) := by
  obtain ⟨sb, ebd, ea, la⟩ := o
  constructor
  · intro h
    cases h
    rfl
  · intro h
    cases h
    rfl

/-- Witness for C2 at a concrete input: both flags explicitly false stay
false in the resolved instance. -/
theorem C2_witness :
    ((create "CompA" (some ({} : ViewData String Int))
        { showBackdrop := some false, enableBackdropDismiss := some false }).modal.data.opts).map
      ModalOptions.showBackdrop = some (some false) ∧
    ((create "CompA" (some ({} : ViewData String Int))
        { showBackdrop := some false, enableBackdropDismiss := some false }).modal.data.opts).map
      ModalOptions.enableBackdropDismiss = some (some false) :=
  ⟨(C2_explicit_false_preserved "CompA" (some {})
      { showBackdrop := some false, enableBackdropDismiss := some false }).1 rfl,
   (C2_explicit_false_preserved "CompA" (some {})
      { showBackdrop := some false, enableBackdropDismiss := some false }).2 rfl⟩

/-- Claim C3: getTransitionName with direction back returns the explicit
per-instance leave animation when set (truthy, i.e. a non-empty string) and
otherwise the ambient configuration value for key modalLeave; with any
other direction it returns the explicit enter animation when set and
otherwise the ambient configuration value for key modalEnter. -/
theorem C3_transition_name {Comp Val : Type} (m : Modal Comp Val) (d : String) :
    (d = "back" →
      (∀ s, m._leaveAnimation = some s → s ≠ "" → m.getTransitionName d = some s) ∧
      (strTruthy m._leaveAnimation = false →
        m.getTransitionName d = ambientConfig m "modalLeave")) ∧
    (d ≠ "back" →
      (∀ s, m._enterAnimation = some s → s ≠ "" → m.getTransitionName d = some s) ∧
      (strTruthy m._enterAnimation = false →
        m.getTransitionName d = ambientConfig m "modalEnter")) := by
  constructor
  · intro hd
    subst hd
    constructor
    · intro s hs hne
      simp [Modal.getTransitionName, strTruthy, hs, hne]
    · intro hf
      simp [Modal.getTransitionName, hf]
  · intro hd
    constructor
    · intro s hs hne
      simp [Modal.getTransitionName, strTruthy, hs, hne, hd]
    · intro hf
      simp [Modal.getTransitionName, hf, hd]

/-- Witness for C3 at concrete inputs: the explicit override wins when set,
and the ambient modalLeave value is returned when no override is set. -/
theorem C3_witness :
    sampleModalBack.getTransitionName "back" = some "my-fade-out" ∧
    sampleModalCfg.getTransitionName "back" = some "modal-slide-out" := by
  constructor
  · exact ((C3_transition_name sampleModalBack "back").1 rfl).1 "my-fade-out" rfl (by decide)
  · have h := ((C3_transition_name sampleModalCfg "back").1 rfl).2 rfl
    rw [h]
    rfl

/-- Claim C4 counterexample: create is not free of effects on state outside
the returned instance. At the concrete input component CompA with an empty
data object and an empty options record, the caller-supplied data object is
mutated in place by the constructor (it gains the component and opts keys),
so its post-call state differs from the value passed in. -/
theorem C4_counterexample :
    (create "CompA" (some ({} : ViewData String Int)) ({} : ModalOptions)).dataRef ≠
      some ({} : ViewData String Int) := by
  decide

/-- Claim C4 amended: create returns a new view instance and does not
present it, but its only external effects are the in-place mutations of the
two caller-supplied argument objects: the data object gains the component
key (set to the component argument) and the opts key (aliasing the resolved
options record), with all user-supplied keys preserved, and the options
object has its two backdrop flags overwritten with their resolved values
while its animation fields are preserved. -/
theorem C4_amended {Comp Val : Type} (c : Comp) (d : ViewData Comp Val) (o : ModalOptions) :
    (create c (some d) o).dataRef = some ((create c (some d) o).modal.data) ∧
    (create c (some d) o).modal.data.component = some c ∧
    (create c (some d) o).modal.data.fields = d.fields ∧
    (create c (some d) o).modal.data.opts = some ((create c (some d) o).optsRef) ∧
    (create c (some d) o).optsRef.enterAnimation = o.enterAnimation ∧
    (create c (some d) o).optsRef.leaveAnimation = o.leaveAnimation ∧
    (create c (some d) o).optsRef.showBackdrop =
      some (if isPresent o.showBackdrop then truthy o.showBackdrop else true) ∧
    (create c (some d) o).optsRef.enableBackdropDismiss =
      some (if isPresent o.enableBackdropDismiss then truthy o.enableBackdropDismiss else true) := by
  obtain ⟨dc, dopts, dfields⟩ := d
  obtain ⟨sb, ebd, ea, la⟩ := o
  exact ⟨rfl, rfl, rfl, rfl, rfl, rfl, rfl, rfl⟩

/-- Claim C5: for every component reference and data payload passed to
create, the data mapping of the constructed view instance carries the
component under the reserved component key with every user-supplied key
preserved, and when the options record is empty the options mapping of the
instance has showBackdrop and enableBackdropDismiss both true; this covers
the concrete example create(CompA, userId 8675309). -/
theorem C5_data_merge {Comp Val : Type} (c : Comp) (d : ViewData Comp Val) (o : ModalOptions) :
    (create c (some d) o).modal.data.component = some c ∧
    (create c (some d) o).modal.data.fields = d.fields ∧
    (o = {} →
      ∃ o1, (create c (some d) o).modal.data.opts = some o1 ∧
        o1.showBackdrop = some true ∧ o1.enableBackdropDismiss = some true) := by
  obtain ⟨dc, dopts, dfields⟩ := d
  refine ⟨rfl, rfl, ?_⟩
  intro h
  cases h
  exact ⟨_, rfl, rfl, rfl⟩

/-- Witness for C5 at the concrete example of the spec: create(CompA,
userId 8675309) yields a data mapping holding the component CompA and the
userId key, and resolved options with both backdrop flags true. -/
theorem C5_witness :
    (create "CompA" (some sampleData) ({} : ModalOptions)).modal.data.component = some "CompA" ∧
    (create "CompA" (some sampleData) ({} : ModalOptions)).modal.data.fields =
      [("userId", (8675309 : Int))] ∧
    ∃ o1, (create "CompA" (some sampleData) ({} : ModalOptions)).modal.data.opts = some o1 ∧
      o1.showBackdrop = some true ∧ o1.enableBackdropDismiss = some true := by
  have h := C5_data_merge "CompA" sampleData ({} : ModalOptions)
  exact ⟨h.1, h.2.1.trans rfl, h.2.2 rfl⟩

/-- Claim C6: for every modal instance and navigation options, present
delegates to the external presenter exactly once, passing the view instance
itself, the navigation options, and the MODAL overlay classification tag,
and returns the presenter result unchanged. -/
theorem C6_present_delegates {Comp Val R : Type} (app : PresenterCall Comp Val → R)
    (m : Modal Comp Val) (n : NavOptions) :
    Modal.present app m n =
      (app { view := m, navOptions := n, portal := AppPortal.MODAL },
       [{ view := m, navOptions := n, portal := AppPortal.MODAL }]) :=
  rfl

/-- Claim C7: registering a name twice makes every subsequent lookup of that
name resolve to the second factory (last write wins); a registration under
one name leaves every other name unchanged, and registering never removes
an existing registration. -/
theorem C7_register_last_write_wins (reg : AnimationRegistry) (n : String)
    (f1 f2 : AnimationFactory) :
    Animation.register (Animation.register reg n f1) n f2 n = some f2 ∧
    (∀ m, m ≠ n → Animation.register (Animation.register reg n f1) n f2 m = reg m) ∧
    (∀ m f, (reg m).isSome = true → (Animation.register reg n f m).isSome = true) := by
  refine ⟨?_, ?_, ?_⟩
  · simp [Animation.register]
  · intro m hm
    simp [Animation.register, hm]
  · intro m f hm
    by_cases h : m = n <;> simp [Animation.register, h, hm]

/-- Witness for C7 at concrete inputs: after registering the slide-out
factory and then the slide-in factory under the same name, the lookup of
that name yields the slide-in factory, and a different name is untouched. -/
theorem C7_witness :
    Animation.register (Animation.register emptyRegistry "modal-slide-in" ModalSlideOut)
      "modal-slide-in" ModalSlideIn "modal-slide-in" = some ModalSlideIn ∧
    Animation.register (Animation.register emptyRegistry "modal-slide-in" ModalSlideOut)
      "modal-slide-in" ModalSlideIn "modal-slide-out" = emptyRegistry "modal-slide-out" :=
  ⟨(C7_register_last_write_wins emptyRegistry "modal-slide-in" ModalSlideOut ModalSlideIn).1,
   (C7_register_last_write_wins emptyRegistry "modal-slide-in" ModalSlideOut
      ModalSlideIn).2.1 "modal-slide-out" (by decide)⟩

/-- Claim C8: the overlay lifecycle admits no transition out of dismissed,
a present call on a dismissed or already-presenting instance is rejected
rather than silently accepted, and the chain created to presenting to
presented to dismissing to dismissed is exactly the successor structure. -/
theorem C8_lifecycle_single_use :
    overlayNext OverlayState.dismissed = none ∧
    tryPresent OverlayState.dismissed = Except.error "overlay can only be presented once" ∧
    tryPresent OverlayState.presenting = Except.error "overlay can only be presented once" ∧
    tryPresent OverlayState.created = Except.ok OverlayState.presenting ∧
    overlayNext OverlayState.created = some OverlayState.presenting ∧
    overlayNext OverlayState.presenting = some OverlayState.presented ∧
    overlayNext OverlayState.presented = some OverlayState.dismissing ∧
    overlayNext OverlayState.dismissing = some OverlayState.dismissed :=
  ⟨rfl, rfl, rfl, rfl, rfl, rfl, rfl, rfl⟩

/-- Claim C9: whenever the transition name requested at presentation time by
getTransitionName is absent or not registered in the animation registry,
the presentation-time resolution rejects with a configuration error rather
than silently ignoring the failure. -/
theorem C9_unregistered_rejected {Comp Val : Type} (reg : AnimationRegistry)
    (m : Modal Comp Val) (d : String)
    (h : ∀ n, m.getTransitionName d = some n → reg n = none) :
    ∃ e, resolveTransition reg (m.getTransitionName d) = Except.error e := by
  cases hg : m.getTransitionName d with
  | none => exact ⟨"animation not registered", rfl⟩
  | some n =>
    have hr := h n hg
    exact ⟨"animation not registered", by simp [resolveTransition, hr]⟩

/-- Witness for C9 at a concrete input: the sample modal requests the
unregistered name my-fade-out for direction back, and resolution against
the module-load registry rejects. -/
theorem C9_witness :
    ∃ e, resolveTransition moduleRegistry (sampleModalBack.getTransitionName "back") =
      Except.error e :=
  C9_unregistered_rejected moduleRegistry sampleModalBack "back"
    (fun n hn => by
      rw [show sampleModalBack.getTransitionName "back" = some "my-fade-out" from rfl] at hn
      cases hn
      decide)

/-- Claim C10: the type of a constructed Label is determined by the first
attribute bound to the empty string in the precedence order floating,
stacked, fixed, inset, and is null when none of the four is bound to the
empty string. -/
theorem C10_label_type_precedence (f s x i : Option String) :
    (f = some "" → (Label.make f s x i).type = some "floating") ∧
    (f ≠ some "" → s = some "" → (Label.make f s x i).type = some "stacked") ∧
    (f ≠ some "" → s ≠ some "" → x = some "" → (Label.make f s x i).type = some "fixed") ∧
    (f ≠ some "" → s ≠ some "" → x ≠ some "" → i = some "" →
      (Label.make f s x i).type = some "inset") ∧
    (f ≠ some "" → s ≠ some "" → x ≠ some "" → i ≠ some "" →
      (Label.make f s x i).type = none) := by
  refine ⟨?_, ?_, ?_, ?_, ?_⟩
  · intro hf
    simp [Label.make, hf]
  · intro hf hs
    simp [Label.make, hf, hs]
  · intro hf hs hx
    simp [Label.make, hf, hs, hx]
  · intro hf hs hx hi
    simp [Label.make, hf, hs, hx, hi]
  · intro hf hs hx hi
    simp [Label.make, hf, hs, hx, hi]

/-- Witness for C10 at concrete inputs: floating wins over stacked when
both attributes are bound to the empty string, stacked wins when floating
is absent, and the type is null when no attribute is bound. -/
theorem C10_witness :
    (Label.make (some "") (some "") none none).type = some "floating" ∧
    (Label.make none (some "") (some "") none).type = some "stacked" ∧
    (Label.make none none none none).type = none :=
  ⟨(C10_label_type_precedence (some "") (some "") none none).1 rfl,
   (C10_label_type_precedence none (some "") (some "") none).2.1 (by decide) rfl,
   (C10_label_type_precedence none none none none).2.2.2.2 (by decide) (by decide) (by decide)
     (by decide)⟩

end Ionic
